import Mathlib

/-!
Verification of the bot-detection / cloaking-proxy repository.

The development shallow-embeds the TypeScript sources:
  - `src/lib/botDetection.ts`  (top-level definitions below),
  - `src/middleware.ts`        (namespace `RedirectMW`),
  - the SSR reverse-proxy middleware variant (namespace `SSRMW`),
  - the proxy middleware variant with ChatGPT patterns (namespace `ProxyMW`).

JavaScript strings are modelled as Lean `String`; `String.prototype.includes`
is modelled by `strContains`, `toLowerCase` by `toLowerStr` (character-wise
lowering, which agrees on all ASCII pattern data used by the sources).
-/

/-- Is `p` a prefix of `l`? (character lists) -/
def isPre : List Char → List Char → Bool
  | [], _ => true
  | _ :: _, [] => false
  | a :: as, b :: bs => a == b && isPre as bs

/-- Does `hay` contain `pat` as a contiguous substring? -/
def hasSub : List Char → List Char → Bool
  | [], pat => isPre pat []
  | c :: t, pat => isPre pat (c :: t) || hasSub t pat

/-- Model of JavaScript `s.includes(pat)`. -/
def strContains (s pat : String) : Bool :=
  hasSub s.data pat.data

/-- Model of JavaScript `s.toLowerCase()` (character-wise; exact on ASCII). -/
def toLowerStr (s : String) : String :=
  ⟨s.data.map Char.toLower⟩

/-- Confidence levels of `BotDetectionResult` (`'high' | 'medium' | 'low'`). -/
inductive Confidence where
  | high
  | medium
  | low
deriving DecidableEq, BEq, Repr

/-- `BotDetectionResult` from `src/lib/botDetection.ts`. -/
structure BotDetectionResult where
  isBot : Bool
  reason : Option String
  confidence : Confidence
deriving DecidableEq, Repr

/-- `TIKTOK_BOT_PATTERNS` (case-sensitive named-crawler markers). -/
def TIKTOK_BOT_PATTERNS : List String :=
  ["Bytespider", "TikTokSpider"]

/-- `CHATGPT_AI_BOT_PATTERNS` (matched against the lower-cased User-Agent). -/
def CHATGPT_AI_BOT_PATTERNS : List String :=
  ["chatgpt-user", "gptbot", "openai", "claude-web", "anthropic-ai",
   "anthropic", "perplexitybot", "perplexity", "coherebot", "cohere",
   "bingbot", "google-extended", "omgilibot", "omgili",
   "facebookexternalhit", "meta-externalagent"]

/-- `GENERIC_BOT_PATTERNS` (matched against the lower-cased User-Agent). -/
def GENERIC_BOT_PATTERNS : List String :=
  ["bot", "crawler", "spider", "scraper", "curl", "wget",
   "python-requests", "java/", "go-http-client", "headlesschrome",
   "phantomjs", "selenium", "puppeteer", "playwright", "scrapy",
   "mechanize"]

/-- `TIKTOK_WEBVIEW_PATTERNS` (legitimate in-app browser markers). -/
def TIKTOK_WEBVIEW_PATTERNS : List String :=
  ["trill", "musical_ly", "BytedanceWebview", "JsSdk/1.0", "JsSdk/2.0"]

/-- `TIKTOK_DOMAINS` — emptied in the source because referer-based
detection caused false positives. -/
def TIKTOK_DOMAINS : List String := []

/-- `isTikTokBotUserAgent`: case-sensitive match of the named-crawler set. -/
def isTikTokBotUserAgent (userAgent : String) : Bool :=
  TIKTOK_BOT_PATTERNS.any (fun pattern => strContains userAgent pattern)

/-- `isTikTokWebView`: case-sensitive match of the webview marker set. -/
def isTikTokWebView (userAgent : String) : Bool :=
  TIKTOK_WEBVIEW_PATTERNS.any (fun pattern => strContains userAgent pattern)

/-- `isChatGPTBotUserAgent`: lower-cases the User-Agent first. -/
def isChatGPTBotUserAgent (userAgent : String) : Bool :=
  let ua := toLowerStr userAgent
  CHATGPT_AI_BOT_PATTERNS.any (fun pattern => strContains ua pattern)

/-- `isTikTokReferer`: lower-cases the referer and scans `TIKTOK_DOMAINS`. -/
def isTikTokReferer (referer : String) : Bool :=
  let ref := toLowerStr referer
  TIKTOK_DOMAINS.any (fun domain => strContains ref domain)

/-- `isGenericBot`: lower-cases the User-Agent and scans the generic set. -/
def isGenericBot (userAgent : String) : Bool :=
  let ua := toLowerStr userAgent
  GENERIC_BOT_PATTERNS.any (fun pattern => strContains ua pattern)

/-- Presence view of the four standard headers consulted by
`detectHeadlessBrowser` (the source reads them through `headers.get`,
coerced to booleans with `!!`). -/
structure HeaderView where
  acceptLanguage : Bool
  acceptEncoding : Bool
  accept : Bool
  connection : Bool
deriving DecidableEq, Repr

/-- `detectHeadlessBrowser`: at least two of the four standard headers
absent. -/
def detectHeadlessBrowser (headers : HeaderView) : Bool :=
  let missingCount :=
    ([headers.acceptLanguage, headers.acceptEncoding, headers.accept,
      headers.connection].filter (fun h => !h)).length
  decide (missingCount ≥ 2)

/-- `detectBot` from `src/lib/botDetection.ts`: ordered rules — webview
(human, high), named TikTok crawler (bot, high), AI crawler (bot, high),
generic marker + headless headers (bot, medium), generic marker alone
(bot, medium for obvious tools, else low), default human (high).
The `referer` parameter is accepted but never read. -/
def detectBot (userAgent : String) (referer : String := "")
    (headers : Option HeaderView := none) : BotDetectionResult :=
  if isTikTokWebView userAgent then
    { isBot := false
      reason := some "TikTok WebView - legitimate human user"
      confidence := .high }
  else if isTikTokBotUserAgent userAgent then
    { isBot := true
      reason := some "TikTok bot user-agent detected (Bytespider or TikTokSpider)"
      confidence := .high }
  else if isChatGPTBotUserAgent userAgent then
    { isBot := true
      reason := some "ChatGPT/AI bot user-agent detected"
      confidence := .high }
  else if (match headers with
           | some h => isGenericBot userAgent && detectHeadlessBrowser h
           | none => false) then
    { isBot := true
      reason := some "Generic bot pattern with headless browser indicators"
      confidence := .medium }
  else if isGenericBot userAgent then
    let ua := toLowerStr userAgent
    if ["curl", "wget", "python-requests", "scrapy"].any
        (fun tool => strContains ua tool) then
      { isBot := true
        reason := some "Automated tool detected"
        confidence := .medium }
    else
      { isBot := true
        reason := some "Generic bot pattern detected"
        confidence := .low }
  else
    { isBot := false, reason := none, confidence := .high }

/-- `isBotRequest`: boolean wrapper keeping only high/medium bot verdicts. -/
def isBotRequest (userAgent : String) (referer : String := "")
    (headers : Option HeaderView := none) : Bool :=
  let result := detectBot userAgent referer headers
  result.isBot &&
    (result.confidence == Confidence.high || result.confidence == Confidence.medium)

/-! ### URL model (the subset of WHATWG `URL` used by `buildRedirectUrl`) -/

/-- Split a character list at every occurrence of `sep`
(model of JS `String.prototype.split` with a single-character separator). -/
def splitChars (sep : Char) : List Char → List (List Char)
  | [] => [[]]
  | c :: t =>
    let r := splitChars sep t
    if c == sep then [] :: r
    else
      match r with
      | [] => [[c]]
      | x :: xs => (c :: x) :: xs

/-- Split at the first occurrence of `sep`, when present. -/
def splitFirst (sep : Char) : List Char → List Char × Option (List Char)
  | [] => ([], none)
  | c :: t =>
    if c == sep then ([], some t)
    else
      let r := splitFirst sep t
      (c :: r.1, r.2)

/-- Interleave `sep` between the pieces (model of `Array.prototype.join`). -/
def joinChars (sep : Char) : List (List Char) → List Char
  | [] => []
  | [x] => x
  | x :: xs => x ++ sep :: joinChars sep xs

/-- Locate the first occurrence of `pat` in a list: `some (pre, post)` with
the list equal to `pre ++ pat ++ post`, or `none`. -/
def breakSub (pat : List Char) : List Char → Option (List Char × List Char)
  | [] => if isPre pat [] then some ([], []) else none
  | c :: t =>
    if isPre pat (c :: t) then some ([], (c :: t).drop pat.length)
    else (breakSub pat t).map (fun pr => (c :: pr.1, pr.2))

/-- Parse a query string into key/value pairs (model of `URLSearchParams`). -/
def parseParams (q : List Char) : List (List Char × List Char) :=
  if q.isEmpty then []
  else
    (splitChars '&' q).map (fun kv =>
      match splitFirst '=' kv with
      | (k, some v) => (k, v)
      | (k, none) => (k, []))

/-- The parts of a JS `URL` object read and written by `buildRedirectUrl`:
`origin` (scheme and host), `pathname`, and the search parameter list. -/
structure JsUrl where
  origin : List Char
  pathname : List Char
  params : List (List Char × List Char)
deriving DecidableEq, Repr

/-- Parse an absolute URL into `JsUrl` (model of `new URL(baseUrl)`;
`none` models the constructor throwing). -/
def parseUrl (s : String) : Option JsUrl :=
  match breakSub "://".data s.data with
  | none => none
  | some (scheme, rest) =>
    match splitFirst '/' rest with
    | (host, none) =>
      match splitFirst '?' host with
      | (h, none) => some ⟨scheme ++ "://".data ++ h, "/".data, []⟩
      | (h, some q) => some ⟨scheme ++ "://".data ++ h, "/".data, parseParams q⟩
    | (host, some pathq) =>
      match splitFirst '?' pathq with
      | (p, none) => some ⟨scheme ++ "://".data ++ host, '/' :: p, []⟩
      | (p, some q) => some ⟨scheme ++ "://".data ++ host, '/' :: p, parseParams q⟩

/-- Drop one trailing slash (model of `pathname.replace(/\\/$/, "")`). -/
def stripSlash (l : List Char) : List Char :=
  if l.getLast? = some '/' then l.dropLast else l

/-- Serialise a `JsUrl` (model of `url.toString()`). -/
def urlToString (u : JsUrl) : String :=
  ⟨u.origin ++ u.pathname ++
    (if u.params.isEmpty then []
     else '?' :: joinChars '&' (u.params.map (fun kv => kv.1 ++ '=' :: kv.2)))⟩

/-- `buildRedirectUrl` (textually identical in `middleware.ts` and in the
proxy middleware variant): parse the base URL, append the inbound path
segments that lie beyond the `/p/\x7bproxyId\x7d` prefix, append every inbound
query parameter, and fall back to the unmodified base URL if parsing fails. -/
def buildRedirectUrl (baseUrl : String) (pathname : String)
    (searchParams : List (String × String)) : String :=
  match parseUrl baseUrl with
  | none => baseUrl
  | some url =>
    let pathParts := splitChars '/' pathname.data
    let additionalPath := joinChars '/' (pathParts.drop 3)
    let url :=
      if !additionalPath.isEmpty then
        { url with pathname := stripSlash url.pathname ++ '/' :: additionalPath }
      else url
    let url :=
      { url with
          params := url.params ++ searchParams.map (fun kv => (kv.1.data, kv.2.data)) }
    urlToString url

/-! ### HTTP response model shared by the middleware variants -/

/-- The parts of a `NextResponse` observable by a client. -/
structure Response where
  status : Nat
  body : String
  headers : List (String × String)
deriving DecidableEq, Repr

/-- Case-insensitive header lookup (model of `Headers.prototype.get`). -/
def getHeader (hs : List (String × String)) (name : String) : Option String :=
  (hs.find? (fun p => toLowerStr p.1 == toLowerStr name)).map (fun p => p.2)

/-- Case-insensitive header overwrite (model of `Headers.prototype.set`). -/
def setHeader (hs : List (String × String)) (name value : String) :
    List (String × String) :=
  if hs.any (fun p => toLowerStr p.1 == toLowerStr name) then
    hs.map (fun p => if toLowerStr p.1 == toLowerStr name then (name, value) else p)
  else hs ++ [(name, value)]

/-- Outcome of one outbound `fetch`: a response, or a thrown network error. -/
inductive FetchOutcome where
  | ok (status : Nat) (body : String) (headers : List (String × String))
  | fetchError
deriving DecidableEq, Repr

/-- JS falsiness of an optional environment string (`!REAL_URL` is true for
both an unset variable and an empty one). -/
def isFalsy : Option String → Bool
  | none => true
  | some s => s == ""

/-- The static "Proxy Not Configured" HTML page returned with status 500
when `REAL_URL` or `BOT_URL` is missing (identical template literal in
`middleware.ts` and in the proxy middleware variant; braces and apostrophes
appear escaped). -/
def proxyNotConfiguredHtml : String :=
  "\n<!DOCTYPE html>\n<html lang=\"en\">\n<head>\n    <meta charset=\"UTF-8\">\n    <meta name=\"viewport\" content=\"width=device-width, initial-scale=1.0\">\n    <title>Proxy Not Configured</title>\n    <style>\n        * \x7b margin: 0; padding: 0; box-sizing: border-box; \x7d\n        body \x7b\n            font-family: -apple-system, BlinkMacSystemFont, \x27Segoe UI\x27, Roboto, sans-serif;\n            background: linear-gradient(135deg, #667eea 0%, #764ba2 100%);\n            min-height: 100vh;\n            display: flex;\n            align-items: center;\n            justify-content: center;\n            padding: 20px;\n        \x7d\n        .container \x7b\n            background: white;\n            border-radius: 16px;\n            box-shadow: 0 20px 60px rgba(0,0,0,0.3);\n            max-width: 600px;\n            width: 100%;\n            padding: 40px;\n        \x7d\n        h1 \x7b color: #333; margin-bottom: 16px; font-size: 28px; \x7d\n        .icon \x7b font-size: 48px; margin-bottom: 20px; \x7d\n        p \x7b color: #666; line-height: 1.6; margin-bottom: 24px; \x7d\n        .steps \x7b\n            background: #f8f9fa;\n            border-left: 4px solid #667eea;\n            padding: 20px;\n            margin: 20px 0;\n            border-radius: 4px;\n        \x7d\n        .steps h2 \x7b\n            color: #667eea;\n            font-size: 18px;\n            margin-bottom: 16px;\n        \x7d\n        .steps ol \x7b\n            margin-left: 20px;\n        \x7d\n        .steps li \x7b\n            color: #555;\n            margin-bottom: 12px;\n            line-height: 1.5;\n        \x7d\n        code \x7b\n            background: #e9ecef;\n            padding: 2px 6px;\n            border-radius: 3px;\n            font-family: \x27Courier New\x27, monospace;\n            color: #e83e8c;\n            font-size: 14px;\n        \x7d\n        .warning \x7b\n            background: #fff3cd;\n            border: 1px solid #ffc107;\n            padding: 16px;\n            border-radius: 8px;\n            margin-top: 20px;\n        \x7d\n        .warning strong \x7b\n            color: #856404;\n        \x7d\n        a \x7b\n            color: #667eea;\n            text-decoration: none;\n            font-weight: 600;\n        \x7d\n        a:hover \x7b\n            text-decoration: underline;\n        \x7d\n    </style>\n</head>\n<body>\n    <div class=\"container\">\n        <div class=\"icon\">⚠️</div>\n        <h1>Proxy Service Not Configured</h1>\n        <p>The proxy service requires environment variables to be configured before it can work.</p>\n\n        <div class=\"steps\">\n            <h2>Setup Instructions:</h2>\n            <ol>\n                <li>Go to <a href=\"https://vercel.com/dashboard\" target=\"_blank\">Vercel Dashboard</a></li>\n                <li>Select your project</li>\n                <li>Navigate to <strong>Settings → Environment Variables</strong></li>\n                <li>Add the following variables:\n                    <ul style=\"margin: 8px 0 0 20px;\">\n                        <li><code>REAL_URL</code> - Your real website URL (e.g., https://your-site.com)</li>\n                        <li><code>BOT_URL</code> - Your decoy website URL (e.g., https://decoy-site.com)</li>\n                    </ul>\n                </li>\n                <li>Set them for <strong>Production</strong>, <strong>Preview</strong>, and <strong>Development</strong></li>\n                <li>Trigger a new deployment (or push a commit to redeploy)</li>\n            </ol>\n        </div>\n\n        <div class=\"warning\">\n            <strong>Arabic Instructions (تعليمات بالعربية):</strong><br>\n            زيد المتغيرات ديال البيئة في Vercel:<br>\n            <code>REAL_URL</code> (الموقع الحقيقي) و <code>BOT_URL</code> (الموقع المزيف للبوتات)<br>\n            شوف الملف <code>DEPLOYMENT_AR.md</code> للتفاصيل الكاملة.\n        </div>\n\n        <p style=\"margin-top: 24px; font-size: 14px; color: #999;\">\n            Need help? Check the <code>README.md</code> or <code>DEPLOYMENT_AR.md</code> files in your repository.\n        </p>\n    </div>\n</body>\n</html>\n      "

/-- The static "Service Temporarily Unavailable" HTML page returned with
status 503 by the SSR middleware variant when the outbound fetch throws. -/
def serviceUnavailableHtml : String :=
  "\n<!DOCTYPE html>\n<html lang=\"en\">\n<head>\n    <meta charset=\"UTF-8\">\n    <meta name=\"viewport\" content=\"width=device-width, initial-scale=1.0\">\n    <title>Service Temporarily Unavailable</title>\n    <style>\n        body \x7b\n            font-family: -apple-system, BlinkMacSystemFont, \x27Segoe UI\x27, Roboto, sans-serif;\n            display: flex;\n            align-items: center;\n            justify-content: center;\n            min-height: 100vh;\n            margin: 0;\n            background: linear-gradient(135deg, #667eea 0%, #764ba2 100%);\n        \x7d\n        .container \x7b\n            background: white;\n            padding: 40px;\n            border-radius: 16px;\n            box-shadow: 0 20px 60px rgba(0,0,0,0.3);\n            max-width: 500px;\n            text-align: center;\n        \x7d\n        h1 \x7b color: #333; margin-bottom: 16px; \x7d\n        p \x7b color: #666; line-height: 1.6; \x7d\n        .error-code \x7b color: #999; font-size: 14px; margin-top: 20px; \x7d\n    </style>\n</head>\n<body>\n    <div class=\"container\">\n        <h1>⚠️ Service Temporarily Unavailable</h1>\n        <p>We\x27re experiencing technical difficulties. Please try again in a few moments.</p>\n        <p class=\"error-code\">Error: Proxy connection failed</p>\n    </div>\n</body>\n</html>\n      "

/-! ### `src/middleware.ts` — redirect-based middleware variant -/

namespace RedirectMW

/-- The local `tikTokBotPatterns` list of `detectTikTokBot`: matched against
the lower-cased User-Agent, it includes the webview identifiers
`musical_ly` and `trill` alongside crawler names. -/
def tikTokBotPatterns : List String :=
  ["tiktok", "bytespider", "bytedance", "musically", "musical_ly", "trill"]

/-- The local `genericBotIndicators` list of `detectTikTokBot`. -/
def genericBotIndicators : List String :=
  ["bot", "crawler", "spider", "scraper", "curl", "wget", "python-requests",
   "java/", "go-http-client", "headlesschrome", "phantomjs", "selenium",
   "puppeteer"]

/-- `detectTikTokBot` from `src/middleware.ts`. The User-Agent and Referer
are lower-cased up front; webview identifiers are part of the bot pattern
list, so in-app browser traffic is classified as bot by this variant. -/
def detectTikTokBot (userAgentRaw refererRaw : String)
    (hasAcceptLanguage hasAcceptEncoding hasAccept : Bool) : Bool :=
  let userAgent := toLowerStr userAgentRaw
  let referer := toLowerStr refererRaw
  let isTikTokUserAgent :=
    tikTokBotPatterns.any (fun pattern => strContains userAgent pattern)
  let isTikTokReferer :=
    strContains referer "tiktok.com" || strContains referer "musical.ly" ||
      strContains referer "bytedance.com"
  let hasGenericBotPattern :=
    genericBotIndicators.any (fun pattern => strContains userAgent pattern)
  let suspiciousHeaders := !hasAcceptLanguage && !hasAcceptEncoding
  if isTikTokUserAgent || isTikTokReferer then true
  else if hasGenericBotPattern && suspiciousHeaders then true
  else if hasGenericBotPattern && !hasAccept then true
  else false

/-- `middleware` from `src/middleware.ts`: 500 with the static
configuration page when either destination is falsy, otherwise a 302
redirect to `buildRedirectUrl` of the chosen destination. -/
def middleware (REAL_URL BOT_URL : Option String) (userAgent referer : String)
    (hasAcceptLanguage hasAcceptEncoding hasAccept : Bool)
    (pathname : String) (searchParams : List (String × String)) : Response :=
  if isFalsy REAL_URL || isFalsy BOT_URL then
    { status := 500
      body := proxyNotConfiguredHtml
      headers := [("Content-Type", "text/html; charset=utf-8"),
                  ("Cache-Control", "no-cache, no-store, must-revalidate")] }
  else
    let isBot :=
      detectTikTokBot userAgent referer hasAcceptLanguage hasAcceptEncoding
        hasAccept
    let targetUrl := if isBot then BOT_URL.getD "" else REAL_URL.getD ""
    let redirectUrl := buildRedirectUrl targetUrl pathname searchParams
    { status := 302
      body := ""
      headers := [("Location", redirectUrl),
                  ("Cache-Control", "no-cache, no-store, must-revalidate"),
                  ("Pragma", "no-cache"),
                  ("Expires", "0")] }

end RedirectMW

/-! ### SSR reverse-proxy middleware variant (first file of
`src/unnamed/part_000`) -/

namespace SSRMW

/-- The hard-coded fallback for `REAL_URL`. -/
def FALLBACK_REAL_URL : String :=
  "https://ecoshopin.store/products/propolis-%D8%A7%D9%84%D8%A3%D8%B5%D9%84%D9%8A-%D8%A3%D9%82%D9%88%D9%89-%D9%85%D9%83%D9%85%D9%84-%D8%B7%D8%A8%D9%8A%D8%B9%D9%8A-%D9%83%D9%8A%D8%AD%D9%85%D9%8A-%D9%85%D9%86%D8%A7%D8%B9%D8%AA%D9%83-%D9%88%D9%8A%D8%B9%D8%B7%D9%8A%D9%83-%D9%85%D9%86-%D8%A7%D9%84%D9%82%D9%88%D9%85%D9%86-%D8%A7%D9%84%D8%AF%D8%A7%D8%AE%D9%84-%F0%9F%90%9D%E2%9C%A8"

/-- The hard-coded fallback for `BOT_URL`. -/
def FALLBACK_BOT_URL : String :=
  "https://storelhata.com/pages/miroir"

/-- Model of `process.env.X || fallback`. -/
def envOr (env : Option String) (fallback : String) : String :=
  match env with
  | none => fallback
  | some s => if s == "" then fallback else s

/-- This variant re-declares `TIKTOK_WEBVIEW_PATTERNS` locally. -/
def TIKTOK_WEBVIEW_PATTERNS : List String :=
  ["trill", "musical_ly", "BytedanceWebview", "JsSdk/1.0", "JsSdk/2.0"]

/-- This variant re-declares `TIKTOK_BOT_PATTERNS` locally. -/
def TIKTOK_BOT_PATTERNS : List String :=
  ["Bytespider", "TikTokSpider"]

/-- `detectTikTokBot` of the SSR variant: webview first (human), then the
named crawler markers (bot), else human; all matches case-sensitive. -/
def detectTikTokBot (userAgent : String) : Bool :=
  if TIKTOK_WEBVIEW_PATTERNS.any (fun pattern => strContains userAgent pattern) then
    false
  else if TIKTOK_BOT_PATTERNS.any (fun pattern => strContains userAgent pattern) then
    true
  else
    false

/-- The response-header allow-list forwarded from the upstream response. -/
def headersToForward : List String :=
  ["content-type", "content-language", "content-security-policy",
   "x-frame-options", "x-content-type-options"]

/-- `middleware` of the SSR variant. The outbound `fetch` is abstracted as
a function from the target URL to a `FetchOutcome`; `FetchOutcome.fetchError`
models the fetch throwing, which the source catches and converts into the
static 503 page. -/
def middleware (REAL_URL BOT_URL : Option String) (userAgent : String)
    (fetch : String → FetchOutcome) : Response :=
  let realUrl := envOr REAL_URL FALLBACK_REAL_URL
  let botUrl := envOr BOT_URL FALLBACK_BOT_URL
  let isTikTokBot := detectTikTokBot userAgent
  let targetUrl := if isTikTokBot then botUrl else realUrl
  match fetch targetUrl with
  | .ok status body upstreamHeaders =>
    let responseHeaders := headersToForward.foldl
      (fun acc name =>
        match getHeader upstreamHeaders name with
        | some value => setHeader acc name value
        | none => acc) []
    let responseHeaders :=
      setHeader responseHeaders "Cache-Control"
        "no-cache, no-store, must-revalidate, proxy-revalidate"
    let responseHeaders := setHeader responseHeaders "Pragma" "no-cache"
    let responseHeaders := setHeader responseHeaders "Expires" "0"
    let responseHeaders :=
      setHeader responseHeaders "X-Bot-Detection"
        (if isTikTokBot then "bot" else "human")
    let responseHeaders :=
      setHeader responseHeaders "X-Proxy-Target"
        (if isTikTokBot then "fake-url" else "real-url")
    let responseHeaders := setHeader responseHeaders "X-Render-Mode" "server-side"
    { status := status, body := body, headers := responseHeaders }
  | .fetchError =>
    { status := 503
      body := serviceUnavailableHtml
      headers := [("Content-Type", "text/html; charset=utf-8"),
                  ("Cache-Control", "no-cache, no-store, must-revalidate"),
                  ("Retry-After", "60")] }

end SSRMW

/-! ### Proxy middleware variant with ChatGPT patterns (second file of
`src/unnamed/part_000`) -/

namespace ProxyMW

/-- The local `tikTokBotPatterns` list (same as the redirect variant). -/
def tikTokBotPatterns : List String :=
  ["tiktok", "bytespider", "bytedance", "musically", "musical_ly", "trill"]

/-- The local `chatGPTAIBotPatterns` list. -/
def chatGPTAIBotPatterns : List String :=
  ["chatgpt-user", "gptbot", "openai", "claude-web", "anthropic-ai",
   "anthropic", "perplexitybot", "perplexity", "coherebot", "cohere",
   "bingbot", "google-extended", "omgilibot", "omgili",
   "facebookexternalhit", "meta-externalagent"]

/-- The local `genericBotIndicators` list. -/
def genericBotIndicators : List String :=
  ["bot", "crawler", "spider", "scraper", "curl", "wget", "python-requests",
   "java/", "go-http-client", "headlesschrome", "phantomjs", "selenium",
   "puppeteer"]

/-- `detectBot` of the proxy middleware variant: lower-cased User-Agent
matched against TikTok, AI, and generic pattern lists, plus a referer
domain check and missing-header heuristics. -/
def detectBot (userAgentRaw refererRaw : String)
    (hasAcceptLanguage hasAcceptEncoding hasAccept : Bool) : Bool :=
  let userAgent := toLowerStr userAgentRaw
  let referer := toLowerStr refererRaw
  let isTikTokUserAgent :=
    tikTokBotPatterns.any (fun pattern => strContains userAgent pattern)
  let isChatGPTAIUserAgent :=
    chatGPTAIBotPatterns.any (fun pattern => strContains userAgent pattern)
  let isTikTokReferer :=
    strContains referer "tiktok.com" || strContains referer "musical.ly" ||
      strContains referer "bytedance.com"
  let hasGenericBotPattern :=
    genericBotIndicators.any (fun pattern => strContains userAgent pattern)
  let suspiciousHeaders := !hasAcceptLanguage && !hasAcceptEncoding
  if isTikTokUserAgent || isTikTokReferer then true
  else if isChatGPTAIUserAgent then true
  else if hasGenericBotPattern && suspiciousHeaders then true
  else if hasGenericBotPattern && !hasAccept then true
  else false

/-- The response-header allow-list forwarded from the upstream response. -/
def headersToForward : List String :=
  ["content-type", "content-language", "cache-control", "expires",
   "last-modified", "etag"]

/-- `middleware` of the proxy variant: 500 configuration page when a
destination is falsy; otherwise fetch `buildRedirectUrl` of the chosen
destination and relay it, and on a thrown fetch fall back to a 302
redirect to that same URL. -/
def middleware (REAL_URL BOT_URL : Option String) (userAgent referer : String)
    (hasAcceptLanguage hasAcceptEncoding hasAccept : Bool)
    (pathname : String) (searchParams : List (String × String))
    (fetch : String → FetchOutcome) : Response :=
  if isFalsy REAL_URL || isFalsy BOT_URL then
    { status := 500
      body := proxyNotConfiguredHtml
      headers := [("Content-Type", "text/html; charset=utf-8"),
                  ("Cache-Control", "no-cache, no-store, must-revalidate")] }
  else
    let isBot :=
      detectBot userAgent referer hasAcceptLanguage hasAcceptEncoding hasAccept
    let targetUrl := if isBot then BOT_URL.getD "" else REAL_URL.getD ""
    let proxyUrl := buildRedirectUrl targetUrl pathname searchParams
    match fetch proxyUrl with
    | .ok status body upstreamHeaders =>
      let responseHeaders := headersToForward.foldl
        (fun acc name =>
          match getHeader upstreamHeaders name with
          | some value => setHeader acc name value
          | none => acc) []
      let responseHeaders :=
        setHeader responseHeaders "Cache-Control"
          "no-cache, no-store, must-revalidate"
      let responseHeaders := setHeader responseHeaders "Pragma" "no-cache"
      let responseHeaders := setHeader responseHeaders "Expires" "0"
      let responseHeaders :=
        setHeader responseHeaders "X-Proxy-Mode" (if isBot then "bot" else "user")
      { status := status, body := body, headers := responseHeaders }
    | .fetchError =>
      { status := 302
        body := ""
        headers := [("Location", proxyUrl),
                    ("Cache-Control", "no-cache, no-store, must-revalidate"),
                    ("Pragma", "no-cache"),
                    ("Expires", "0")] }

end ProxyMW

/-! ### Helper lemmas -/

/-- `isPre` is preserved by mapping a function over both lists. -/
theorem isPre_map (f : Char → Char) :
    ∀ p l, isPre p l = true → isPre (p.map f) (l.map f) = true
  | [], _, _ => rfl
  | a :: as, [], h => by simp [isPre] at h
  | a :: as, b :: bs, h => by
    simp only [isPre, Bool.and_eq_true, beq_iff_eq] at h
    simp only [List.map, isPre, Bool.and_eq_true, beq_iff_eq]
    exact ⟨by rw [h.1], isPre_map f as bs h.2⟩

/-- `hasSub` is preserved by mapping a function over both lists. -/
theorem hasSub_map (f : Char → Char) :
    ∀ l p, hasSub l p = true → hasSub (l.map f) (p.map f) = true
  | [], p, h => by
    simp only [hasSub] at h ⊢
    exact isPre_map f p [] h
  | c :: t, p, h => by
    simp only [hasSub, Bool.or_eq_true] at h ⊢
    rcases h with h | h
    · exact Or.inl (isPre_map f p (c :: t) h)
    · exact Or.inr (hasSub_map f t p h)

/-- When a pattern is already lower-case, containment in a string implies
containment in the lower-cased string. -/
theorem strContains_lower (ua pat : String) (hpat : toLowerStr pat = pat)
    (h : strContains ua pat = true) :
    strContains (toLowerStr ua) pat = true := by
  have hdata : pat.data.map Char.toLower = pat.data := congrArg String.data hpat
  have := hasSub_map Char.toLower ua.data pat.data h
  rw [hdata] at this
  exact this

/-- Any User-Agent whose lower-casing contains `trill` or `musical_ly` is
classified as a bot by the redirect middleware detector, whatever the
referer and header flags. -/
theorem redirectMW_detect_of_marker (ua ref : String) (hAL hAE hA : Bool)
    (h : strContains (toLowerStr ua) "trill" = true ∨
         strContains (toLowerStr ua) "musical_ly" = true) :
    RedirectMW.detectTikTokBot ua ref hAL hAE hA = true := by
  have hany : RedirectMW.tikTokBotPatterns.any
      (fun pattern => strContains (toLowerStr ua) pattern) = true := by
    simp only [RedirectMW.tikTokBotPatterns, List.any_cons, List.any_nil,
      Bool.or_eq_true]
    rcases h with h | h
    · tauto
    · tauto
  simp [RedirectMW.detectTikTokBot, hany]

/-! ### Claim theorems -/

/-- C1: every User-Agent containing at least one platform-webview marker is
classified human with high confidence by `detectBot`, for every referer and
header-presence view, even when crawler or automation markers are also
present in the same string. -/
theorem c1_webview_always_human (ua ref : String) (hv : Option HeaderView)
    (h : ∃ p ∈ TIKTOK_WEBVIEW_PATTERNS, strContains ua p = true) :
    (detectBot ua ref hv).isBot = false ∧
    (detectBot ua ref hv).confidence = Confidence.high := by
  obtain ⟨p, hp, hc⟩ := h
  have hw : isTikTokWebView ua = true := by
    unfold isTikTokWebView
    exact List.any_eq_true.mpr ⟨p, hp, hc⟩
  simp [detectBot, hw]

/-- C1 witness: a User-Agent holding both the webview marker `trill` and
the crawler marker `Bytespider` is still classified human, high. -/
theorem c1_witness :
    (detectBot "trill_200005 JsSdk/1.0 Bytespider bot curl" "" (some ⟨false, false, false, false⟩)).isBot = false ∧
    (detectBot "trill_200005 JsSdk/1.0 Bytespider bot curl" "" (some ⟨false, false, false, false⟩)).confidence = Confidence.high :=
  c1_webview_always_human "trill_200005 JsSdk/1.0 Bytespider bot curl" ""
    (some ⟨false, false, false, false⟩) ⟨"trill", by decide, by decide⟩

/-- C2: a User-Agent containing `Bytespider` or `TikTokSpider` with exact
capitalization and no webview marker yields a high-confidence bot verdict,
for every referer and header view; and the lower-case variant `bytespider`
does not match the named-crawler rule. -/
theorem c2_named_crawler_high (ua ref : String) (hv : Option HeaderView)
    (h : strContains ua "Bytespider" = true ∨ strContains ua "TikTokSpider" = true)
    (hw : isTikTokWebView ua = false) :
    detectBot ua ref hv =
      { isBot := true
        reason := some "TikTok bot user-agent detected (Bytespider or TikTokSpider)"
        confidence := Confidence.high } ∧
    isTikTokBotUserAgent "bytespider" = false := by
  refine ⟨?_, by decide⟩
  have hb : isTikTokBotUserAgent ua = true := by
    simp only [isTikTokBotUserAgent, TIKTOK_BOT_PATTERNS, List.any_cons,
      List.any_nil, Bool.or_eq_true]
    tauto
  simp [detectBot, hw, hb]

/-- C2 witness: the documented Bytespider User-Agent is a high bot. -/
theorem c2_witness :
    detectBot "Mozilla/5.0 (compatible; Bytespider; spider-feedback@bytedance.com)" "https://anywhere.example" (some ⟨true, true, true, true⟩) =
      { isBot := true
        reason := some "TikTok bot user-agent detected (Bytespider or TikTokSpider)"
        confidence := Confidence.high } ∧
    isTikTokBotUserAgent "bytespider" = false :=
  c2_named_crawler_high
    "Mozilla/5.0 (compatible; Bytespider; spider-feedback@bytedance.com)"
    "https://anywhere.example" (some ⟨true, true, true, true⟩)
    (Or.inl (by decide)) (by decide)

/-- C3 counterexample: `mechanize` matches only a generic-automation marker,
and with `Accept` alone absent (`Accept-Language`, `Accept-Encoding`,
`Connection` present) `detectBot` returns confidence `low`, not `medium` as
the claim states — `detectHeadlessBrowser` requires at least two missing
headers, and no obvious-tool marker is present. -/
theorem c3_counterexample :
    isGenericBot "mechanize" = true ∧
    isTikTokWebView "mechanize" = false ∧
    isTikTokBotUserAgent "mechanize" = false ∧
    isChatGPTBotUserAgent "mechanize" = false ∧
    detectBot "mechanize" "" (some ⟨true, true, false, true⟩) =
      { isBot := true
        reason := some "Generic bot pattern detected"
        confidence := Confidence.low } := by
  decide

/-- C3 amended: for a User-Agent matching a generic-automation marker and
none of the webview, named-crawler, or AI-crawler markers, when the header
view reports `Accept` absent and the other three headers present, the
headless-browser rule does not fire (it needs at least two absent headers);
`detectBot` returns a bot verdict whose confidence is `medium` exactly when
an obvious-tool marker (`curl`, `wget`, `python-requests`, `scrapy`) is
present in the lower-cased User-Agent, and `low` otherwise. -/
theorem c3_amended (ua ref : String)
    (hg : isGenericBot ua = true)
    (hw : isTikTokWebView ua = false)
    (hb : isTikTokBotUserAgent ua = false)
    (hc : isChatGPTBotUserAgent ua = false) :
    detectBot ua ref (some ⟨true, true, false, true⟩) =
      (if ["curl", "wget", "python-requests", "scrapy"].any
          (fun tool => strContains (toLowerStr ua) tool) then
        { isBot := true
          reason := some "Automated tool detected"
          confidence := Confidence.medium }
      else
        { isBot := true
          reason := some "Generic bot pattern detected"
          confidence := Confidence.low }) := by
  have hh : detectHeadlessBrowser ⟨true, true, false, true⟩ = false := by decide
  simp [detectBot, hw, hb, hc, hg, hh]

/-- C3 amended witness: `curl` with `Accept` alone absent is a medium bot. -/
theorem c3_amended_witness :
    detectBot "curl/8.5.0" "" (some ⟨true, true, false, true⟩) =
      { isBot := true
        reason := some "Automated tool detected"
        confidence := Confidence.medium } := by
  have h := c3_amended "curl/8.5.0" "" (by decide) (by decide) (by decide) (by decide)
  rw [h]
  decide

/-- C4: `isBotRequest` returns true exactly when `detectBot` on the same
input yields a bot verdict of high or medium confidence; a low-confidence
bot verdict is dispatched as human. -/
theorem c4_isBotRequest_iff (ua ref : String) (hv : Option HeaderView) :
    (isBotRequest ua ref hv = true ↔
      (detectBot ua ref hv).isBot = true ∧
        ((detectBot ua ref hv).confidence = Confidence.high ∨
         (detectBot ua ref hv).confidence = Confidence.medium)) ∧
    ((detectBot ua ref hv).isBot = true →
      (detectBot ua ref hv).confidence = Confidence.low →
      isBotRequest ua ref hv = false) := by
  rcases hres : detectBot ua ref hv with ⟨ib, rs, cf⟩
  cases ib <;> cases cf <;> simp [isBotRequest, hres] <;> decide

/-- C4 witness: `mechanize` draws a low-confidence bot verdict, and
`isBotRequest` dispatches it as human. -/
theorem c4_witness :
    isBotRequest "mechanize" "" none = false :=
  (c4_isBotRequest_iff "mechanize" "" none).2 (by decide) (by decide)

/-- C5: redirect-mode URL composition — path segments beyond the
`/p/\x7bid\x7d` prefix are appended to the target path and inbound query
parameters are appended to (not substituted into) the target query string;
checked on the specified round trip and on a base URL that already carries
a same-named parameter. -/
theorem c5_redirect_url_composition :
    buildRedirectUrl "https://real.example/base" "/p/abc123/extra/seg"
        [("x", "1")] = "https://real.example/base/extra/seg?x=1" ∧
    buildRedirectUrl "https://real.example/base?x=0" "/p/abc123/extra/seg"
        [("x", "1")] = "https://real.example/base/extra/seg?x=0&x=1" := by
  exact ⟨rfl, rfl⟩

/-- C6 counterexample: in the proxy variant, a bot-classified request
(`Bytespider`) whose outbound fetch throws is answered with a 302 redirect
to the BOT destination, not the human destination — so the fallback is not
"a 503 page or a redirect to the human destination" as claimed. -/
theorem c6_counterexample :
    (ProxyMW.middleware (some "https://real.example/base")
        (some "https://bot.example/decoy") "Bytespider" "" true true true "/"
        [] (fun _ => FetchOutcome.fetchError)).status = 302 ∧
    getHeader (ProxyMW.middleware (some "https://real.example/base")
        (some "https://bot.example/decoy") "Bytespider" "" true true true "/"
        [] (fun _ => FetchOutcome.fetchError)).headers "Location" =
      some "https://bot.example/decoy" ∧
    getHeader (ProxyMW.middleware (some "https://real.example/base")
        (some "https://bot.example/decoy") "Bytespider" "" true true true "/"
        [] (fun _ => FetchOutcome.fetchError)).headers "Location" ≠
      some "https://real.example/base" := by
  decide

/-- C6 amended: if the outbound fetch throws, both reverse-proxy variants
return a fixed fallback and never propagate the exception: the SSR variant
a static 503 "service unavailable" HTML page, the proxy variant a degraded
302 redirect to the chosen destination URL (the same URL whose fetch
failed — the bot destination for bot-classified requests). -/
theorem c6_fetch_error_fallback (envReal envBot : Option String)
    (ua ref : String) (hAL hAE hA : Bool) (pathname : String)
    (searchParams : List (String × String)) (fetch : String → FetchOutcome)
    (hfetch : ∀ url, fetch url = FetchOutcome.fetchError)
    (hr : isFalsy envReal = false) (hb : isFalsy envBot = false) :
    SSRMW.middleware envReal envBot ua fetch =
      { status := 503
        body := serviceUnavailableHtml
        headers := [("Content-Type", "text/html; charset=utf-8"),
                    ("Cache-Control", "no-cache, no-store, must-revalidate"),
                    ("Retry-After", "60")] } ∧
    ProxyMW.middleware envReal envBot ua ref hAL hAE hA pathname searchParams
        fetch =
      { status := 302
        body := ""
        headers := [("Location",
                      buildRedirectUrl
                        (if ProxyMW.detectBot ua ref hAL hAE hA then
                          envBot.getD ""
                        else envReal.getD "") pathname searchParams),
                    ("Cache-Control", "no-cache, no-store, must-revalidate"),
                    ("Pragma", "no-cache"),
                    ("Expires", "0")] } := by
  constructor
  · simp [SSRMW.middleware, hfetch]
  · simp [ProxyMW.middleware, hfetch, hr, hb]

/-- C6 witness: with a fetch that always throws and configured
destinations, the SSR variant answers 503 and the proxy variant answers a
302 redirect to the bot destination for a `Bytespider` request. -/
theorem c6_witness :
    SSRMW.middleware (some "https://real.example/base")
        (some "https://bot.example/decoy") "Bytespider"
        (fun _ => FetchOutcome.fetchError) =
      { status := 503
        body := serviceUnavailableHtml
        headers := [("Content-Type", "text/html; charset=utf-8"),
                    ("Cache-Control", "no-cache, no-store, must-revalidate"),
                    ("Retry-After", "60")] } ∧
    ProxyMW.middleware (some "https://real.example/base")
        (some "https://bot.example/decoy") "Bytespider" "" true true true "/"
        [] (fun _ => FetchOutcome.fetchError) =
      { status := 302
        body := ""
        headers := [("Location",
                      buildRedirectUrl
                        (if ProxyMW.detectBot "Bytespider" "" true true true then
                          (some "https://bot.example/decoy").getD ""
                        else (some "https://real.example/base").getD "") "/" []),
                    ("Cache-Control", "no-cache, no-store, must-revalidate"),
                    ("Pragma", "no-cache"),
                    ("Expires", "0")] } :=
  c6_fetch_error_fallback (some "https://real.example/base")
    (some "https://bot.example/decoy") "Bytespider" "" true true true "/" []
    (fun _ => FetchOutcome.fetchError) (fun _ => rfl) rfl rfl

/-- C7: when `REAL_URL` or `BOT_URL` is missing, the redirect middleware
answers a deterministic HTTP 500 carrying the static configuration page and
no-cache headers, for every request. -/
theorem c7_missing_config_500 (envReal envBot : Option String)
    (ua ref : String) (hAL hAE hA : Bool) (pathname : String)
    (searchParams : List (String × String))
    (h : envReal = none ∨ envBot = none) :
    RedirectMW.middleware envReal envBot ua ref hAL hAE hA pathname
        searchParams =
      { status := 500
        body := proxyNotConfiguredHtml
        headers := [("Content-Type", "text/html; charset=utf-8"),
                    ("Cache-Control", "no-cache, no-store, must-revalidate")] } := by
  rcases h with h | h <;> subst h <;> simp [RedirectMW.middleware, isFalsy]

/-- C7 witness: both variables missing, an ordinary Chrome request. -/
theorem c7_witness :
    RedirectMW.middleware none none "Mozilla/5.0 Chrome/120.0" "" true true
        true "/p/abc123" [] =
      { status := 500
        body := proxyNotConfiguredHtml
        headers := [("Content-Type", "text/html; charset=utf-8"),
                    ("Cache-Control", "no-cache, no-store, must-revalidate")] } :=
  c7_missing_config_500 none none "Mozilla/5.0 Chrome/120.0" "" true true true
    "/p/abc123" [] (Or.inl rfl)

/-- C8: the referer domain table is empty, `isTikTokReferer` rejects every
referer, and the referer argument never influences a `detectBot` verdict. -/
theorem c8_referer_table_inert :
    TIKTOK_DOMAINS = [] ∧
    (∀ referer, isTikTokReferer referer = false) ∧
    (∀ ua r1 r2 hv, detectBot ua r1 hv = detectBot ua r2 hv) :=
  ⟨rfl, fun _ => rfl, fun _ _ _ _ => rfl⟩

/-- C9 counterexample: `TRILL Bytespider` contains `trill`
case-insensitively, and the redirect-variant detector classifies it as a
bot — but the library `detectBot` also classifies it as a bot (the webview
check is case-sensitive and `Bytespider` matches the crawler rule), so the
outcomes are not opposite for every case-insensitive match. -/
theorem c9_counterexample :
    strContains (toLowerStr "TRILL Bytespider") "trill" = true ∧
    RedirectMW.detectTikTokBot "TRILL Bytespider" "" true true true = true ∧
    (detectBot "TRILL Bytespider" "" none).isBot = true := by
  decide

/-- C9 amended: the redirect-variant `detectTikTokBot` lower-cases the
User-Agent and its pattern list includes the webview markers `trill` and
`musical_ly`, so every User-Agent containing either marker
case-insensitively is classified as a bot and, with valid configuration,
routed to the bot URL; for User-Agents containing `trill` or `musical_ly`
with exact (lower-case) casing — webview traffic in particular — this is
the opposite of the library classifier `detectBot`, which returns a human
verdict; for other casings `detectBot` need not disagree. -/
theorem c9_webview_marker_routing :
    (∀ ua ref hAL hAE hA,
      (strContains (toLowerStr ua) "trill" = true ∨
       strContains (toLowerStr ua) "musical_ly" = true) →
      RedirectMW.detectTikTokBot ua ref hAL hAE hA = true) ∧
    (∀ (REAL BOT ua ref : String) hAL hAE hA pathname
        (searchParams : List (String × String)),
      REAL ≠ "" → BOT ≠ "" →
      (strContains (toLowerStr ua) "trill" = true ∨
       strContains (toLowerStr ua) "musical_ly" = true) →
      RedirectMW.middleware (some REAL) (some BOT) ua ref hAL hAE hA pathname
          searchParams =
        { status := 302
          body := ""
          headers := [("Location", buildRedirectUrl BOT pathname searchParams),
                      ("Cache-Control", "no-cache, no-store, must-revalidate"),
                      ("Pragma", "no-cache"),
                      ("Expires", "0")] }) ∧
    (∀ ua ref r2 hv hAL hAE hA,
      (strContains ua "trill" = true ∨ strContains ua "musical_ly" = true) →
      RedirectMW.detectTikTokBot ua r2 hAL hAE hA = true ∧
      (detectBot ua ref hv).isBot = false) := by
  refine ⟨redirectMW_detect_of_marker, ?_, ?_⟩
  · intro REAL BOT ua ref hAL hAE hA pathname searchParams hR hB h
    have hbot := redirectMW_detect_of_marker ua ref hAL hAE hA h
    simp [RedirectMW.middleware, isFalsy, hR, hB, hbot]
  · intro ua ref r2 hv hAL hAE hA h
    have hlow : strContains (toLowerStr ua) "trill" = true ∨
        strContains (toLowerStr ua) "musical_ly" = true := by
      rcases h with h | h
      · exact Or.inl (strContains_lower ua "trill" rfl h)
      · exact Or.inr (strContains_lower ua "musical_ly" rfl h)
    refine ⟨redirectMW_detect_of_marker ua r2 hAL hAE hA hlow, ?_⟩
    have hw : isTikTokWebView ua = true := by
      simp only [isTikTokWebView, TIKTOK_WEBVIEW_PATTERNS, List.any_cons,
        List.any_nil, Bool.or_eq_true]
      tauto
    simp [detectBot, hw]

/-- C9 witness: the Android TikTok webview User-Agent is a bot for the
redirect variant (routed to the bot URL) and a human for `detectBot`. -/
theorem c9_witness :
    RedirectMW.middleware (some "https://real.example/base")
        (some "https://bot.example/decoy") "trill_200005 JsSdk/1.0" "" true
        true true "/p/abc123" [] =
      { status := 302
        body := ""
        headers := [("Location", buildRedirectUrl "https://bot.example/decoy"
                      "/p/abc123" []),
                    ("Cache-Control", "no-cache, no-store, must-revalidate"),
                    ("Pragma", "no-cache"),
                    ("Expires", "0")] } ∧
    (detectBot "trill_200005 JsSdk/1.0" "" none).isBot = false :=
  ⟨c9_webview_marker_routing.2.1 "https://real.example/base"
      "https://bot.example/decoy" "trill_200005 JsSdk/1.0" "" true true true
      "/p/abc123" [] (by decide) (by decide) (Or.inl (by decide)),
   (c9_webview_marker_routing.2.2 "trill_200005 JsSdk/1.0" "" "" none true
      true true (Or.inl (by decide))).2⟩

/-- C10: `detectBot` is independent of its referer argument — the parameter
is accepted but never read. -/
theorem c10_referer_independent (ua r1 r2 : String) (hv : Option HeaderView) :
    detectBot ua r1 hv = detectBot ua r2 hv :=
  rfl
